import Mathlib

/-!
Verification development for the go-librenms client library.

The definitions below are a shallow embedding of the request/response
marshaling layer of the repository: the flexible boolean codec, the
partial-update payload builders, the response normalizers (flatten and
filter-to-one), the HTTP error check, the decode pipeline of Client.do,
and the alert-rule payload mutation. Go machine integers (int, int64) are
modelled as Lean Int (no operation here can overflow), byte slices as
String, Go maps built with distinct keys as association lists, and
pointer-typed optional fields as Option.
-/

set_option autoImplicit false

namespace LibreNMS

/-! ## Flexible boolean codec (part_003 lines 262-285) -/

/-- Bool.MarshalJSON (part_003 lines 262-267): the wire bytes for the custom
Bool type are the numeral 1 for true and the numeral 0 for false. -/
def boolMarshalJSON (b : Bool) : String :=
  if b then "1" else "0"

/-- The bytes encoding/json produces for a plain Go bool value
(the literals true and false). Used by the payload builders when a raw
bool is placed into a map[string]interface\x7b\x7d. -/
def goJSONBool (b : Bool) : String :=
  if b then "true" else "false"

/-- The bytes encoding/json produces for a plain Go int value. -/
def goJSONInt (n : Int) : String :=
  toString n

/-- Behaviour of json.Unmarshal(data, v) for a target v of Go type bool:
it succeeds exactly on the JSON literals true and false. -/
def jsonUnmarshalGoBool (data : String) : Option Bool :=
  if data = "true" then some true
  else if data = "false" then some false
  else none

/-- Decimal digit run of a JSON integer literal: nonempty, all digits,
and no leading zero unless the literal is exactly 0. -/
def isDigitsLit : List Char → Bool
  | [] => false
  | [c] => c.isDigit
  | c :: rest => c.isDigit && c != '0' && rest.all Char.isDigit

/-- Numeric value of a run of decimal digits. -/
def digitsToNat (l : List Char) : Nat :=
  l.foldl (fun acc c => acc * 10 + (c.toNat - 48)) 0

/-- Behaviour of json.Unmarshal(data, v) for a target v of Go type int:
it succeeds exactly on a JSON integer literal (optional minus sign, decimal
digits, no fraction or exponent), returning its value. -/
def jsonUnmarshalGoInt (data : String) : Option Int :=
  match data.data with
  | '-' :: rest =>
    if isDigitsLit rest then some (-(digitsToNat rest : Int)) else none
  | l =>
    if isDigitsLit l then some (digitsToNat l : Int) else none

/-- Bool.UnmarshalJSON (part_003 lines 270-285): attempt a strict boolean
decode first; if that fails, attempt an integer decode and map nonzero to
true; if both fail, return the wrapped unmarshal error. -/
def boolUnmarshalJSON (data : String) : Except String Bool :=
  match jsonUnmarshalGoBool data with
  | some valueBool => Except.ok valueBool
  | none =>
    match jsonUnmarshalGoInt data with
    | some value => Except.ok (value != 0)
    | none => Except.error "failed to unmarshal Bool"

/-! ## Partial-update payload builders (location.go) -/

/-- A Go float64 value carried opaquely: the payload builders move float
values into the payload without inspecting them, so only identity of the
value matters here. The field holds the IEEE-754 bit pattern. -/
structure GoFloat where
  bits : Nat := 0
  deriving DecidableEq, Repr

/-- A JSON wire value as placed into a map[string]interface\x7b\x7d payload
by the update-request builders. -/
inductive JVal where
  | jbool (b : Bool)
  | jint (n : Int)
  | jstr (s : String)
  | jfloat (f : GoFloat)
  deriving DecidableEq, Repr

/-- First-match lookup in an association list, modelling indexing a Go map
whose keys were inserted pairwise distinct. -/
def mapLookup (k : String) : List (String × JVal) → Option JVal
  | [] => none
  | (k2, v) :: rest => if k2 = k then some v else mapLookup k rest

/-- LocationUpdateRequest (location.go lines 31-36): every field is a
pointer, nil meaning not set. -/
structure LocationUpdateRequest where
  Name : Option String := none
  FixedCoordinates : Option Bool := none
  Latitude : Option GoFloat := none
  Longitude : Option GoFloat := none
  deriving DecidableEq, Repr

/-- LocationUpdateRequest.payload (location.go lines 146-161): a map holding
one entry per non-nil field, keyed by the wire field name. The dereferenced
FixedCoordinates pointer is stored as a raw Go bool value. -/
def LocationUpdateRequest.payload (r : LocationUpdateRequest) : List (String × JVal) :=
  (match r.Name with
    | some n => [("location", JVal.jstr n)]
    | none => []) ++
  (match r.FixedCoordinates with
    | some b => [("fixed_coordinates", JVal.jbool b)]
    | none => []) ++
  (match r.Latitude with
    | some lat => [("lat", JVal.jfloat lat)]
    | none => []) ++
  (match r.Longitude with
    | some lng => [("lng", JVal.jfloat lng)]
    | none => [])

/-- ServiceUpdateRequest (location.go lines 573-580): every field is a
pointer, nil meaning not set. The source field named Type is rendered here
as ServiceType because Type is a reserved word in Lean. -/
structure ServiceUpdateRequest where
  Name : Option String := none
  Description : Option String := none
  IP : Option String := none
  Ignore : Option Bool := none
  Param : Option String := none
  ServiceType : Option String := none
  deriving DecidableEq, Repr

/-- ServiceUpdateRequest.payload (location.go lines 785-812): a map holding
one entry per non-nil field, keyed by the wire field name; the Ignore
pointer is translated to the Go int 1 or 0 before insertion. -/
def ServiceUpdateRequest.payload (r : ServiceUpdateRequest) : List (String × JVal) :=
  (match r.Name with
    | some n => [("service_name", JVal.jstr n)]
    | none => []) ++
  (match r.Description with
    | some d => [("service_desc", JVal.jstr d)]
    | none => []) ++
  (match r.IP with
    | some ip => [("service_ip", JVal.jstr ip)]
    | none => []) ++
  (match r.Ignore with
    | some b => [("service_ignore", JVal.jint (if b then 1 else 0))]
    | none => []) ++
  (match r.Param with
    | some p => [("service_param", JVal.jstr p)]
    | none => []) ++
  (match r.ServiceType with
    | some t => [("service_type", JVal.jstr t)]
    | none => [])

/-! ## Response envelopes and normalizers (part_003, devicegroup.go, location.go) -/

/-- BaseResponse (part_003 lines 59-65): the universal response envelope. -/
structure BaseResponse where
  Status : String := ""
  Message : String := ""
  Count : Int := 0
  deriving DecidableEq, Repr

/-- DeviceGroup (devicegroup.go lines 18-25). The recursive rule container
field is elided: no operation modelled here inspects it, GetDeviceGroup
copies matching groups wholesale. -/
structure DeviceGroup where
  ID : Int := 0
  Name : String := ""
  Description : Option String := none
  Pattern : Option String := none
  GroupType : String := ""
  deriving DecidableEq, Repr

/-- DeviceGroupResponse (devicegroup.go lines 73-76). -/
structure DeviceGroupResponse extends BaseResponse where
  Groups : List DeviceGroup := []
  deriving DecidableEq, Repr

/-- Service (location.go lines 543-557). The source field named Type is
rendered as ServiceKind because Type is a reserved word in Lean. -/
structure Service where
  ID : Int := 0
  Changed : Int := 0
  Description : String := ""
  DeviceID : Int := 0
  DS : String := ""
  Ignore : Bool := false
  IP : String := ""
  Message : String := ""
  Name : String := ""
  Param : String := ""
  Status : Int := 0
  TemplateID : Int := 0
  ServiceKind : String := ""
  deriving DecidableEq, Repr

/-- serviceResponse (location.go lines 588-591): the internal envelope whose
collection arrives one list level too deep. -/
structure serviceResponse extends BaseResponse where
  Services : List (List Service) := []
  deriving DecidableEq, Repr

/-- ServiceResponse (location.go lines 594-597): the client-facing envelope
with a flat collection. -/
structure ServiceResponse extends BaseResponse where
  Services : List Service := []
  deriving DecidableEq, Repr

/-- serviceResponse.getServices (location.go lines 733-739): flatten the
slice of slices by appending each inner slice in order to an initially
empty slice. -/
def serviceResponse.getServices (s : serviceResponse) : List Service :=
  s.Services.foldl (fun flatServices serviceList => flatServices ++ serviceList) []

/-- strconv.Itoa on a Go int. -/
def itoa (n : Int) : String :=
  toString n

/-- The normalization step of Client.GetDeviceGroup (devicegroup.go lines
120-147) applied to the successfully decoded collection response: copy
status and message, set Count to 1, and append the first group whose name
or decimal ID string equals the identifier, stopping at the first match. -/
def getDeviceGroupFilter (identifier : String) (resp : DeviceGroupResponse) :
    DeviceGroupResponse :=
  let init : DeviceGroupResponse :=
    { Status := resp.Status, Message := resp.Message, Count := 1, Groups := [] }
  match resp.Groups.find? (fun group => group.Name == identifier || itoa group.ID == identifier) with
  | some group => { init with Groups := [group] }
  | none => init

/-- The normalization step of Client.GetService (location.go lines 631-667)
applied to the successfully decoded internal response: flatten the
collection; if it is empty return the flattened envelope unchanged;
otherwise copy status and message into a fresh envelope (Count zero) and
append the first service whose ID equals serviceID, setting Count to 1 on
a match and stopping there. -/
def getServiceFilter (serviceID : Int) (internalResp : serviceResponse) :
    ServiceResponse :=
  let resp : ServiceResponse :=
    { toBaseResponse := internalResp.toBaseResponse
      Services := internalResp.getServices }
  if resp.Services.isEmpty then resp
  else
    match resp.Services.find? (fun service => service.ID == serviceID) with
    | some service =>
      { Status := resp.Status, Message := resp.Message, Count := 1, Services := [service] }
    | none =>
      { Status := resp.Status, Message := resp.Message, Count := 0, Services := [] }

/-- The success path of Client.GetServices and Client.GetServicesForHost
(location.go lines 672-692 and 697-717): flatten the internal collection
and rebuild the envelope with Count recomputed as the flat length. -/
def getServicesNormalize (internalResp : serviceResponse) : ServiceResponse :=
  let services := internalResp.getServices
  { Status := internalResp.Status
    Message := internalResp.Message
    Count := services.length
    Services := services }

/-! ## HTTP error checking (part_003 lines 220-242, errors.go) -/

/-- The response body as checkResponse classifies it: empty, a body that
json.Unmarshal successfully parses into the error envelope (carrying the
decoded status and message fields), or a non-empty body on which that
unmarshal fails, carried as its raw text. The io.ReadAll failure branch of
the source is an IO condition with no counterpart in this embedding. -/
inductive RespBody where
  | empty
  | envelope (status message : String)
  | malformed (text : String)
  deriving DecidableEq, Repr

/-- The parts of an http.Response that checkResponse and ErrorResponse
observe: the numeric status code, the status line, the request URL, and
the body. -/
structure HTTPResponse where
  StatusCode : Int := 0
  Status : String := ""
  RequestURL : String := ""
  Body : RespBody := RespBody.empty
  deriving DecidableEq, Repr

/-- ErrorResponse (errors.go lines 10-14) together with the fields of the
carried http.Response that its Error method reads. -/
structure ErrorResponse where
  RespStatusCode : Int := 0
  RespStatus : String := ""
  RequestURL : String := ""
  Message : String := ""
  Status : String := ""
  deriving DecidableEq, Repr

/-- ErrorResponse.Error (errors.go lines 18-24): the status line and the
request URL, with the message appended after a colon when non-empty. -/
def ErrorResponse.error (e : ErrorResponse) : String :=
  let errMsg := e.RespStatus ++ " " ++ e.RequestURL
  if e.Message = "" then errMsg else errMsg ++ ": " ++ e.Message

/-- checkResponse (part_003 lines 220-242): a status code inside the range
200 to 299 yields no error; any other code yields an ErrorResponse holding
the response, with the message decoded from the body when it parses as the
error envelope, the raw body text when it does not, and left empty when
the body is empty. -/
def checkResponse (resp : HTTPResponse) : Option ErrorResponse :=
  if resp.StatusCode < 200 || 300 ≤ resp.StatusCode then
    let base : ErrorResponse :=
      { RespStatusCode := resp.StatusCode
        RespStatus := resp.Status
        RequestURL := resp.RequestURL }
    some (match resp.Body with
      | RespBody.empty => base
      | RespBody.envelope st msg => { base with Status := st, Message := msg }
      | RespBody.malformed text => { base with Message := text })
  else none

/-! ## The decode pipeline of Client.do (part_003 lines 192-217) -/

/-- A JSON document, the input to the decode stage. -/
inductive JSON where
  | null
  | bool (b : Bool)
  | num (n : Int)
  | str (s : String)
  | arr (elems : List JSON)
  | obj (fields : List (String × JSON))

/-- The decoded body of a 2xx response as json.Decoder sees it: no content
at all (io.EOF), a syntactically valid JSON document, or text that is not
valid JSON (the decoder reports a syntax error before writing any field). -/
inductive BodyData where
  | empty
  | json (j : JSON)
  | invalid (text : String)

/-- One step of json.Unmarshal object decoding into a BaseResponse target:
a known key with a value of the matching type overwrites the field; a known
key with a mismatched type records an UnmarshalTypeError and leaves the
field alone while decoding continues (the best-effort semantics documented
for encoding/json); unknown keys are ignored. The Bool component reports
whether an error was recorded. -/
def unmarshalBaseField (acc : BaseResponse × Bool) (kv : String × JSON) :
    BaseResponse × Bool :=
  match kv with
  | ("status", JSON.str s) => ({ acc.1 with Status := s }, acc.2)
  | ("status", _) => (acc.1, true)
  | ("message", JSON.str s) => ({ acc.1 with Message := s }, acc.2)
  | ("message", _) => (acc.1, true)
  | ("count", JSON.num n) => ({ acc.1 with Count := n }, acc.2)
  | ("count", _) => (acc.1, true)
  | _ => acc

/-- json.Unmarshal of a JSON document into a BaseResponse target: an object
is decoded field by field with best-effort semantics, null is a successful
no-op, and any other top-level value is an UnmarshalTypeError that leaves
the target untouched. -/
def unmarshalBaseResponse (j : JSON) (v : BaseResponse) : BaseResponse × Bool :=
  match j with
  | JSON.obj fields => fields.foldl unmarshalBaseField (v, false)
  | JSON.null => (v, false)
  | _ => (v, true)

/-- The decode stage of Client.do for a BaseResponse target: an empty body
is io.EOF, treated as success with the target untouched; invalid JSON is a
syntax error reported before any field is written; a JSON document is
decoded with best-effort semantics. -/
def goDecodeStep (b : BodyData) (v : BaseResponse) : BaseResponse × Bool :=
  match b with
  | BodyData.empty => (v, false)
  | BodyData.invalid _ => (v, true)
  | BodyData.json j => unmarshalBaseResponse j v

/-- The error Client.do returns, by failing stage. -/
inductive GoError where
  | transport
  | api (statusCode : Int)
  | decode
  deriving DecidableEq, Repr

/-- What one HTTP exchange presents to Client.do: the status code and the
body of the response. -/
structure DoExchange where
  StatusCode : Int := 200
  Body : BodyData := BodyData.empty

/-- Client.do (part_003 lines 192-217) for a BaseResponse target, given the
transport outcome (none models a failed c.client.Do) and the target in the
state the caller handed over: a transport failure returns before the check;
a non-2xx status returns the checkResponse error before decoding; otherwise
the body is decoded into the target. The returned pair is what a caller in
the GetDeviceGroup style observes after the call: the target and the error. -/
def clientDo (t : Option DoExchange) (respObj : BaseResponse) :
    BaseResponse × Option GoError :=
  match t with
  | none => (respObj, some GoError.transport)
  | some ex =>
    if ex.StatusCode < 200 || 300 ≤ ex.StatusCode then
      (respObj, some (GoError.api ex.StatusCode))
    else
      let step := goDecodeStep ex.Body respObj
      (step.1, if step.2 then some GoError.decode else none)

/-! ## Alert rule payload mutation (alertrule.go) -/

/-- AlertRuleCreateRequest (alertrule.go lines 34-50). Go nil and empty
slices both have length zero and are both modelled by the empty list. -/
structure AlertRuleCreateRequest where
  Builder : String := ""
  Count : Int := 0
  Delay : String := ""
  Devices : List Int := []
  Disabled : Bool := false
  Groups : List Int := []
  Interval : String := ""
  Locations : List Int := []
  Mute : Bool := false
  Name : String := ""
  Notes : String := ""
  ProcedureURL : String := ""
  Query : String := ""
  Rule : String := ""
  Severity : String := ""
  deriving DecidableEq, Repr

/-- AlertRuleUpdateRequest (alertrule.go lines 53-56). -/
structure AlertRuleUpdateRequest extends AlertRuleCreateRequest where
  ID : Int := 0
  deriving DecidableEq, Repr

/-- The payload mutation Client.CreateAlertRule performs through the caller
pointer before sending (alertrule.go lines 68-80): when Devices has length
zero it is overwritten with the single-element slice holding -1. The result
is the caller struct as observable after the call returns. -/
def createAlertRuleMutate (payload : AlertRuleCreateRequest) : AlertRuleCreateRequest :=
  if payload.Devices.length = 0 then { payload with Devices := [-1] } else payload

/-- Client.UpdateAlertRule up to its payload mutation (alertrule.go lines
119-135): when ID is below 1 it returns a validation error before touching
the payload; otherwise it applies the same Devices overwrite as the create
path. The pair holds the caller struct as observable after the call and
whether the local validation error fired. -/
def updateAlertRuleMutate (payload : AlertRuleUpdateRequest) :
    AlertRuleUpdateRequest × Bool :=
  if payload.ID < 1 then (payload, true)
  else if payload.Devices.length = 0 then
    ({ payload with Devices := [-1] }, false)
  else (payload, false)

/-! ## Theorems -/

/-- C5: Bool.MarshalJSON yields exactly the byte sequence 1 for true and 0
for false, never the literals true or false, and Bool.UnmarshalJSON applied
to that output recovers the original boolean. -/
theorem flexibleBool_roundtrip :
    boolMarshalJSON true = "1" ∧ boolMarshalJSON false = "0" ∧
    ∀ b : Bool,
      boolMarshalJSON b ≠ "true" ∧
      boolMarshalJSON b ≠ "false" ∧
      boolUnmarshalJSON (boolMarshalJSON b) = Except.ok b := by
  refine ⟨rfl, rfl, ?_⟩
  intro b
  cases b
  · exact ⟨by decide, by decide, rfl⟩
  · exact ⟨by decide, by decide, rfl⟩

/-- C6: Bool.UnmarshalJSON attempts a strict JSON boolean decode first; on
failure it attempts a JSON integer decode mapping nonzero to true and zero
to false; it returns an error exactly when both attempts fail. The literals
true, 1 and 0 decode to true, true and false. -/
theorem flexibleBool_decode_fallback :
    (∀ data : String,
      (∀ b, jsonUnmarshalGoBool data = some b →
        boolUnmarshalJSON data = Except.ok b) ∧
      (jsonUnmarshalGoBool data = none →
        ∀ n, jsonUnmarshalGoInt data = some n →
          boolUnmarshalJSON data = Except.ok (n != 0)) ∧
      ((∃ msg, boolUnmarshalJSON data = Except.error msg) ↔
        jsonUnmarshalGoBool data = none ∧ jsonUnmarshalGoInt data = none)) ∧
    boolUnmarshalJSON "true" = Except.ok true ∧
    boolUnmarshalJSON "1" = Except.ok true ∧
    boolUnmarshalJSON "0" = Except.ok false := by
  refine ⟨?_, rfl, rfl, rfl⟩
  intro data
  refine ⟨?_, ?_, ?_⟩
  · intro b hb
    simp [boolUnmarshalJSON, hb]
  · intro hb n hn
    simp [boolUnmarshalJSON, hb, hn]
  · cases hb : jsonUnmarshalGoBool data <;>
      cases hn : jsonUnmarshalGoInt data <;>
        simp [boolUnmarshalJSON, hb, hn]

/-- Witness for C6: the integer fallback at the concrete payload -2, whose
strict boolean decode fails and whose integer decode yields a nonzero
value, hence true. -/
theorem flexibleBool_decode_fallback_witness :
    boolUnmarshalJSON "-2" = Except.ok true := by
  have h := (flexibleBool_decode_fallback.1 "-2").2.1 rfl (-2) rfl
  exact h

/-- C1: each payload mapping holds exactly the wire field names of the
non-nil attributes of the update request, each mapped to the set value (the
service Ignore boolean through its 1 or 0 translation), and no other keys;
a request with no attribute set yields the empty mapping, and an attribute
set to a zero-equivalent value still appears under its key. -/
theorem payload_exactly_set_attributes :
    (∀ r : LocationUpdateRequest,
      mapLookup "location" r.payload = r.Name.map JVal.jstr ∧
      mapLookup "fixed_coordinates" r.payload = r.FixedCoordinates.map JVal.jbool ∧
      mapLookup "lat" r.payload = r.Latitude.map JVal.jfloat ∧
      mapLookup "lng" r.payload = r.Longitude.map JVal.jfloat ∧
      (∀ k, k ≠ "location" → k ≠ "fixed_coordinates" → k ≠ "lat" → k ≠ "lng" →
        mapLookup k r.payload = none) ∧
      (r.payload = [] ↔
        r.Name = none ∧ r.FixedCoordinates = none ∧
        r.Latitude = none ∧ r.Longitude = none)) ∧
    (∀ r : ServiceUpdateRequest,
      mapLookup "service_name" r.payload = r.Name.map JVal.jstr ∧
      mapLookup "service_desc" r.payload = r.Description.map JVal.jstr ∧
      mapLookup "service_ip" r.payload = r.IP.map JVal.jstr ∧
      mapLookup "service_ignore" r.payload =
        r.Ignore.map (fun b => JVal.jint (if b then 1 else 0)) ∧
      mapLookup "service_param" r.payload = r.Param.map JVal.jstr ∧
      mapLookup "service_type" r.payload = r.ServiceType.map JVal.jstr ∧
      (∀ k, k ≠ "service_name" → k ≠ "service_desc" → k ≠ "service_ip" →
        k ≠ "service_ignore" → k ≠ "service_param" → k ≠ "service_type" →
        mapLookup k r.payload = none) ∧
      (r.payload = [] ↔
        r.Name = none ∧ r.Description = none ∧ r.IP = none ∧
        r.Ignore = none ∧ r.Param = none ∧ r.ServiceType = none)) := by
  constructor
  · rintro ⟨name, fixed, lat, lng⟩
    cases name <;> cases fixed <;> cases lat <;> cases lng <;>
      refine ⟨rfl, rfl, rfl, rfl, ?_, by simp [LocationUpdateRequest.payload]⟩ <;>
        (intro k h1 h2 h3 h4
         simp [LocationUpdateRequest.payload, mapLookup,
           Ne.symm h1, Ne.symm h2, Ne.symm h3, Ne.symm h4])
  · rintro ⟨name, desc, ip, ign, par, ty⟩
    cases name <;> cases desc <;> cases ip <;> cases ign <;> cases par <;> cases ty <;>
      refine ⟨rfl, rfl, rfl, rfl, rfl, rfl, ?_, by simp [ServiceUpdateRequest.payload]⟩ <;>
        (intro k h1 h2 h3 h4 h5 h6
         simp [ServiceUpdateRequest.payload, mapLookup,
           Ne.symm h1, Ne.symm h2, Ne.symm h3, Ne.symm h4, Ne.symm h5, Ne.symm h6])

/-- Witness for C1 at concrete inputs: a location request whose only set
attribute is the empty-string name maps location to the empty string and
nothing else, and a service request with Ignore set to false keeps the
service_ignore key with value 0. -/
theorem payload_exactly_set_attributes_witness :
    mapLookup "location" ({ Name := some "" } : LocationUpdateRequest).payload
      = some (JVal.jstr "") ∧
    mapLookup "lat" ({ Name := some "" } : LocationUpdateRequest).payload = none ∧
    mapLookup "bogus" ({ Name := some "" } : LocationUpdateRequest).payload = none ∧
    mapLookup "service_ignore" ({ Ignore := some false } : ServiceUpdateRequest).payload
      = some (JVal.jint 0) := by
  have hloc := payload_exactly_set_attributes.1 { Name := some "" }
  have hsvc := payload_exactly_set_attributes.2 { Ignore := some false }
  refine ⟨hloc.1, hloc.2.2.1, ?_, hsvc.2.2.2.1⟩
  exact hloc.2.2.2.2.1 "bogus" (by decide) (by decide) (by decide) (by decide)

/-- C2 counterexample: a LocationUpdateRequest with FixedCoordinates set to
false produces a payload entry holding the raw Go bool, which encoding/json
emits as the JSON literal false, not the numeral 0 that the FlexibleBool
encode rule (Bool.MarshalJSON) produces; so the claim fails for the
LocationUpdateRequest boolean field. -/
theorem locationPayload_bool_not_flexible :
    ({ FixedCoordinates := some false } : LocationUpdateRequest).payload
      = [("fixed_coordinates", JVal.jbool false)] ∧
    goJSONBool false = "false" ∧
    boolMarshalJSON false = "0" ∧
    goJSONBool false ≠ boolMarshalJSON false :=
  ⟨rfl, rfl, rfl, by decide⟩

/-- C2 amended: a set boolean attribute is never an omitted key, but only
ServiceUpdateRequest.Ignore is translated through the FlexibleBool encode
rule (set to false emits the numeral 0, set to true emits 1);
LocationUpdateRequest.FixedCoordinates is emitted as a raw JSON boolean
literal true or false. -/
theorem update_bool_field_encodings (b : Bool) :
    (∀ r : ServiceUpdateRequest, r.Ignore = some b →
      mapLookup "service_ignore" r.payload = some (JVal.jint (if b then 1 else 0)) ∧
      goJSONInt (if b then 1 else 0) = boolMarshalJSON b) ∧
    (∀ r : LocationUpdateRequest, r.FixedCoordinates = some b →
      mapLookup "fixed_coordinates" r.payload = some (JVal.jbool b) ∧
      goJSONBool b ≠ boolMarshalJSON b) := by
  constructor
  · rintro ⟨name, desc, ip, ign, par, ty⟩ hig
    cases hig
    constructor
    · cases name <;> cases desc <;> cases ip <;> rfl
    · cases b <;> rfl
  · rintro ⟨name, fixed, lat, lng⟩ hfc
    cases hfc
    constructor
    · cases name <;> rfl
    · cases b <;> decide

/-- Witness for C2 amended: both boolean fields set to false at otherwise
empty requests. -/
theorem update_bool_field_encodings_witness :
    mapLookup "service_ignore" ({ Ignore := some false } : ServiceUpdateRequest).payload
      = some (JVal.jint 0) ∧
    mapLookup "fixed_coordinates"
        ({ FixedCoordinates := some false } : LocationUpdateRequest).payload
      = some (JVal.jbool false) := by
  have h := update_bool_field_encodings false
  exact ⟨(h.1 { Ignore := some false } rfl).1, (h.2 { FixedCoordinates := some false } rfl).1⟩

/-- C3 counterexample: filtering device groups with IDs 1, 2, 3 and names
a, b, c by the identifier z matches nothing and yields an empty collection,
yet GetDeviceGroup reports Count 1, not the 0 the claim requires. -/
theorem getDeviceGroupFilter_noMatch_count_one :
    (getDeviceGroupFilter "z"
      { Status := "ok", Message := "", Count := 3,
        Groups := [{ ID := 1, Name := "a" }, { ID := 2, Name := "b" },
          { ID := 3, Name := "c" }] }).Groups = [] ∧
    (getDeviceGroupFilter "z"
      { Status := "ok", Message := "", Count := 3,
        Groups := [{ ID := 1, Name := "a" }, { ID := 2, Name := "b" },
          { ID := 3, Name := "c" }] }).Count = 1 ∧
    (1 : Int) ≠ 0 := by
  refine ⟨rfl, rfl, by decide⟩

/-- C3 amended: both filters return a new envelope with the original status
and message, holding the first item whose decimal ID string or name equals
the identifier (GetService matches on the numeric ID), with Count 1 on a
match and no error ever raised; but on no match GetDeviceGroup reports
Count 1 with the empty collection (Count is assigned 1 unconditionally),
while GetService reports Count 0, and on an empty flattened collection
GetService returns the envelope with its original server count unchanged. -/
theorem filter_to_one_characterization :
    (∀ (identifier : String) (resp : DeviceGroupResponse),
      (getDeviceGroupFilter identifier resp).Status = resp.Status ∧
      (getDeviceGroupFilter identifier resp).Message = resp.Message ∧
      (getDeviceGroupFilter identifier resp).Count = 1 ∧
      (∀ g, resp.Groups.find?
          (fun group => group.Name == identifier || itoa group.ID == identifier) = some g →
        (getDeviceGroupFilter identifier resp).Groups = [g]) ∧
      (resp.Groups.find?
          (fun group => group.Name == identifier || itoa group.ID == identifier) = none →
        (getDeviceGroupFilter identifier resp).Groups = [])) ∧
    (∀ (serviceID : Int) (internalResp : serviceResponse),
      (internalResp.getServices = [] →
        getServiceFilter serviceID internalResp =
          { toBaseResponse := internalResp.toBaseResponse, Services := [] }) ∧
      (∀ s, internalResp.getServices.find? (fun service => service.ID == serviceID) = some s →
        getServiceFilter serviceID internalResp =
          { Status := internalResp.Status, Message := internalResp.Message,
            Count := 1, Services := [s] }) ∧
      (internalResp.getServices ≠ [] →
        internalResp.getServices.find? (fun service => service.ID == serviceID) = none →
        getServiceFilter serviceID internalResp =
          { Status := internalResp.Status, Message := internalResp.Message,
            Count := 0, Services := [] })) := by
  constructor
  · intro identifier resp
    refine ⟨?_, ?_, ?_, ?_, ?_⟩ <;>
      simp only [getDeviceGroupFilter] <;>
        cases hf : resp.Groups.find?
            (fun group => group.Name == identifier || itoa group.ID == identifier) <;>
          simp_all
  · intro serviceID internalResp
    refine ⟨?_, ?_, ?_⟩
    · intro hempty
      simp [getServiceFilter, hempty]
    · intro s hs
      have hne : internalResp.getServices.isEmpty = false := by
        cases hserv : internalResp.getServices with
        | nil => rw [hserv] at hs; simp at hs
        | cons a l => simp [hserv]
      simp [getServiceFilter, hne, hs]
    · intro hne hf
      have hne2 : internalResp.getServices.isEmpty = false := by
        cases hserv : internalResp.getServices with
        | nil => exact absurd hserv hne
        | cons a l => simp [hserv]
      simp [getServiceFilter, hne2, hf]

/-- Witness for C3 amended at concrete collections: identifier 2 over
groups 1, 2, 3 returns exactly the group with ID 2 and Count 1; service ID
2 over a doubly wrapped pair of services returns the matching service with
Count 1; and the no-match service case yields Count 0. -/
theorem filter_to_one_characterization_witness :
    (getDeviceGroupFilter "2"
      { Status := "ok", Message := "", Count := 3,
        Groups := [{ ID := 1, Name := "a" }, { ID := 2, Name := "b" },
          { ID := 3, Name := "c" }] }).Groups = [{ ID := 2, Name := "b" }] ∧
    getServiceFilter 2
        { Status := "ok", Message := "", Count := 1,
          Services := [[{ ID := 1 }, { ID := 2 }]] } =
      { Status := "ok", Message := "", Count := 1, Services := [{ ID := 2 }] } ∧
    getServiceFilter 9
        { Status := "ok", Message := "", Count := 1,
          Services := [[{ ID := 1 }, { ID := 2 }]] } =
      { Status := "ok", Message := "", Count := 0, Services := [] } := by
  refine ⟨?_, ?_, ?_⟩
  · exact (filter_to_one_characterization.1 "2"
      { Status := "ok", Message := "", Count := 3,
        Groups := [{ ID := 1, Name := "a" }, { ID := 2, Name := "b" },
          { ID := 3, Name := "c" }] }).2.2.2.1 { ID := 2, Name := "b" } (by decide)
  · exact (filter_to_one_characterization.2 2
      { Status := "ok", Message := "", Count := 1,
        Services := [[{ ID := 1 }, { ID := 2 }]] }).2.1 { ID := 2 } (by decide)
  · exact (filter_to_one_characterization.2 9
      { Status := "ok", Message := "", Count := 1,
        Services := [[{ ID := 1 }, { ID := 2 }]] }).2.2 (by decide) (by decide)

/-- Folding list append from an accumulator concatenates the inner lists in
order after the accumulator. -/
theorem foldl_append_eq_flatten {α : Type} (ls : List (List α)) :
    ∀ acc : List α, ls.foldl (fun a l => a ++ l) acc = acc ++ ls.flatten := by
  induction ls with
  | nil => intro acc; simp
  | cons head tail ih => intro acc; simp [List.foldl_cons, ih]

/-- C4: serviceResponse.getServices returns the concatenation of the inner
sequences in their original order, GetServices rebuilds the envelope with
Count equal to the flat length and the original status and message, and a
flat collection wrapped in one extra list level flattens back to itself. -/
theorem flatten_concat_and_count :
    (∀ internalResp : serviceResponse,
      internalResp.getServices = internalResp.Services.flatten ∧
      (getServicesNormalize internalResp).Services = internalResp.Services.flatten ∧
      (getServicesNormalize internalResp).Count = (internalResp.Services.flatten).length ∧
      (getServicesNormalize internalResp).Status = internalResp.Status ∧
      (getServicesNormalize internalResp).Message = internalResp.Message) ∧
    (∀ (base : BaseResponse) (flat : List Service),
      ({ toBaseResponse := base, Services := [flat] } : serviceResponse).getServices
        = flat) := by
  have hjoin : ∀ internalResp : serviceResponse,
      internalResp.getServices = internalResp.Services.flatten := by
    intro internalResp
    simpa using foldl_append_eq_flatten internalResp.Services []
  constructor
  · intro internalResp
    refine ⟨hjoin internalResp, ?_, ?_, rfl, rfl⟩
    · simp [getServicesNormalize, hjoin internalResp]
    · simp [getServicesNormalize, hjoin internalResp]
  · intro base flat
    simp [hjoin { toBaseResponse := base, Services := [flat] }]

/-- C8: a status code outside the range from 200 to 299 always yields an
ErrorResponse carrying the original status and request URL, whose message
is the decoded envelope message when the body parses as the error envelope,
the raw body text when it does not, and, for an empty body, stays empty so
that the Error method synthesizes the text from the status line and URL
alone; a status inside the range yields no error. -/
theorem checkResponse_error_mapping :
    ∀ resp : HTTPResponse,
      (200 ≤ resp.StatusCode → resp.StatusCode < 300 → checkResponse resp = none) ∧
      (resp.StatusCode < 200 ∨ 300 ≤ resp.StatusCode →
        ∃ e, checkResponse resp = some e ∧
          e.RespStatusCode = resp.StatusCode ∧
          e.RespStatus = resp.Status ∧
          e.RequestURL = resp.RequestURL ∧
          (∀ st msg, resp.Body = RespBody.envelope st msg → e.Message = msg) ∧
          (∀ text, resp.Body = RespBody.malformed text → e.Message = text) ∧
          (resp.Body = RespBody.empty →
            e.Message = "" ∧ e.error = resp.Status ++ " " ++ resp.RequestURL)) := by
  intro resp
  constructor
  · intro h1 h2
    have hc1 : ¬ resp.StatusCode < 200 := by omega
    have hc2 : ¬ 300 ≤ resp.StatusCode := by omega
    simp [checkResponse, hc1, hc2]
  · intro h
    have hcond : (decide (resp.StatusCode < 200) || decide (300 ≤ resp.StatusCode)) = true := by
      rcases h with h | h <;> simp [h]
    cases hb : resp.Body with
    | empty =>
      refine ⟨{ RespStatusCode := resp.StatusCode
                RespStatus := resp.Status
                RequestURL := resp.RequestURL }, ?_, rfl, rfl, rfl, ?_, ?_, ?_⟩
      · simp [checkResponse, hcond, hb]
      · intro st msg hcontra; cases hcontra
      · intro text hcontra; cases hcontra
      · intro _; exact ⟨rfl, rfl⟩
    | envelope st msg =>
      refine ⟨{ RespStatusCode := resp.StatusCode
                RespStatus := resp.Status
                RequestURL := resp.RequestURL
                Message := msg
                Status := st }, ?_, rfl, rfl, rfl, ?_, ?_, ?_⟩
      · simp [checkResponse, hcond, hb]
      · intro st2 msg2 heq; cases heq; rfl
      · intro text hcontra; cases hcontra
      · intro hcontra; cases hcontra
    | malformed text =>
      refine ⟨{ RespStatusCode := resp.StatusCode
                RespStatus := resp.Status
                RequestURL := resp.RequestURL
                Message := text }, ?_, rfl, rfl, rfl, ?_, ?_, ?_⟩
      · simp [checkResponse, hcond, hb]
      · intro st2 msg2 hcontra; cases hcontra
      · intro text2 heq; cases heq; rfl
      · intro hcontra; cases hcontra

/-- Witness for C8 at the two simulated responses of the spec: a 404 whose
body is the error envelope with message not found, and a 500 with an empty
body whose error text is synthesized from the status line and URL alone;
plus a 250 response yielding no error. -/
theorem checkResponse_error_mapping_witness :
    checkResponse { StatusCode := 250
                    Status := "250 OK"
                    RequestURL := "u"
                    Body := RespBody.empty } = none ∧
    (∃ e, checkResponse { StatusCode := 404
                          Status := "404 Not Found"
                          RequestURL := "http://h/api/v0/x"
                          Body := RespBody.envelope "error" "not found" } = some e ∧
      e.Message = "not found" ∧ e.RespStatusCode = 404) ∧
    (∃ e, checkResponse { StatusCode := 500
                          Status := "500 Internal Server Error"
                          RequestURL := "u"
                          Body := RespBody.empty } = some e ∧
      e.error = "500 Internal Server Error u") := by
  refine ⟨?_, ?_, ?_⟩
  · exact (checkResponse_error_mapping _).1 (by decide) (by decide)
  · obtain ⟨e, he, hcode, _, _, henv, _, _⟩ :=
      (checkResponse_error_mapping { StatusCode := 404
                                     Status := "404 Not Found"
                                     RequestURL := "http://h/api/v0/x"
                                     Body := RespBody.envelope "error" "not found" }).2
        (Or.inr (by decide))
    exact ⟨e, he, henv "error" "not found" rfl, hcode⟩
  · obtain ⟨e, he, _, _, _, _, _, hemp⟩ :=
      (checkResponse_error_mapping { StatusCode := 500
                                     Status := "500 Internal Server Error"
                                     RequestURL := "u"
                                     Body := RespBody.empty }).2 (Or.inr (by decide))
    exact ⟨e, he, (hemp rfl).2⟩

/-- C9 counterexample: a 200 response whose body is the object with a
string status field and a count field of the wrong type makes the decode
stage of Client.do fail, yet the caller-visible response target carries the
decoded status ok: a partially populated response is observable alongside a
non-nil error, refuting the claim at the decode stage. -/
theorem clientDo_decode_partial_population :
    clientDo (some { StatusCode := 200
                     Body := BodyData.json (JSON.obj
                       [("status", JSON.str "ok"), ("count", JSON.str "x")]) }) {} =
      ({ Status := "ok", Message := "", Count := 0 }, some GoError.decode) ∧
    ({ Status := "ok", Message := "", Count := 0 } : BaseResponse) ≠ {} :=
  ⟨rfl, by decide⟩

/-- C9 amended: a failure at the transport stage or at the status-check
stage returns a non-nil error with the response target exactly as the
caller handed it over (its zero value), and a 2xx response with an empty
body succeeds without touching the target; a decode-stage failure, however,
can leave the target partially populated, because the Go decoder writes the
fields it can before reporting a type error. -/
theorem clientDo_early_stage_leaves_target (ex : DoExchange) (v : BaseResponse) :
    clientDo none v = (v, some GoError.transport) ∧
    ((ex.StatusCode < 200 ∨ 300 ≤ ex.StatusCode) →
      clientDo (some ex) v = (v, some (GoError.api ex.StatusCode))) ∧
    (ex.Body = BodyData.empty → 200 ≤ ex.StatusCode → ex.StatusCode < 300 →
      clientDo (some ex) v = (v, none)) := by
  refine ⟨rfl, ?_, ?_⟩
  · intro h
    have hcond : (decide (ex.StatusCode < 200) || decide (300 ≤ ex.StatusCode)) = true := by
      rcases h with h | h <;> simp [h]
    simp [clientDo, hcond]
  · intro hbody h1 h2
    have hc1 : ¬ ex.StatusCode < 200 := by omega
    have hc2 : ¬ 300 ≤ ex.StatusCode := by omega
    simp [clientDo, hc1, hc2, hbody, goDecodeStep]

/-- Witness for C9 amended: a failed transport, a 404 exchange, and a 204
style empty-body success, all leaving the default target untouched. -/
theorem clientDo_early_stage_leaves_target_witness :
    clientDo none {} = ({}, some GoError.transport) ∧
    clientDo (some { StatusCode := 404, Body := BodyData.empty }) {} =
      ({}, some (GoError.api 404)) ∧
    clientDo (some { StatusCode := 204, Body := BodyData.empty }) {} = ({}, none) := by
  refine ⟨(clientDo_early_stage_leaves_target { StatusCode := 404, Body := BodyData.empty } {}).1,
    (clientDo_early_stage_leaves_target { StatusCode := 404, Body := BodyData.empty } {}).2.1
      (Or.inr (by decide)),
    (clientDo_early_stage_leaves_target { StatusCode := 204, Body := BodyData.empty } {}).2.2
      rfl (by decide) (by decide)⟩

/-- C10 counterexample: UpdateAlertRule called with a rule ID of 0 and an
empty Devices slice returns its validation error before the mutation runs,
so Devices is still empty after the call, refuting the unconditional
overwrite the claim states. -/
theorem updateAlertRule_invalid_id_no_mutation :
    (updateAlertRuleMutate { ID := 0 }).1.Devices = [] ∧
    (updateAlertRuleMutate { ID := 0 }).2 = true ∧
    ([] : List Int) ≠ [-1] :=
  ⟨rfl, rfl, by decide⟩

/-- C10 amended: CreateAlertRule always overwrites a nil or empty Devices
slice with the single-element slice holding -1 through the caller pointer,
leaving a non-empty slice unchanged; UpdateAlertRule does the same only
after its rule ID validation passes (ID at least 1), and returns before
mutating when the ID is below 1. -/
theorem alertRule_devices_mutation (p : AlertRuleCreateRequest)
    (q : AlertRuleUpdateRequest) :
    (p.Devices = [] → createAlertRuleMutate p = { p with Devices := [-1] }) ∧
    (p.Devices ≠ [] → createAlertRuleMutate p = p) ∧
    (1 ≤ q.ID → q.Devices = [] →
      updateAlertRuleMutate q = ({ q with Devices := [-1] }, false)) ∧
    (1 ≤ q.ID → q.Devices ≠ [] → updateAlertRuleMutate q = (q, false)) ∧
    (q.ID < 1 → updateAlertRuleMutate q = (q, true)) := by
  refine ⟨?_, ?_, ?_, ?_, ?_⟩
  · intro h
    simp [createAlertRuleMutate, h]
  · intro h
    simp [createAlertRuleMutate, List.length_eq_zero.ne.mpr h]
  · intro hid h
    have : ¬ q.ID < 1 := by omega
    simp [updateAlertRuleMutate, this, h]
  · intro hid h
    have : ¬ q.ID < 1 := by omega
    simp [updateAlertRuleMutate, this, List.length_eq_zero.ne.mpr h]
  · intro hid
    simp [updateAlertRuleMutate, hid]

/-- Witness for C10 amended at concrete requests: empty Devices is
overwritten by the create path and by a valid update, a non-empty slice is
kept, and an update with ID 0 is left untouched. -/
theorem alertRule_devices_mutation_witness :
    createAlertRuleMutate {} = { Devices := [-1] } ∧
    createAlertRuleMutate { Devices := [7] } = { Devices := [7] } ∧
    updateAlertRuleMutate { ID := 3 } = ({ ID := 3, Devices := [-1] }, false) ∧
    updateAlertRuleMutate { ID := 0 } = ({ ID := 0 }, true) := by
  refine ⟨?_, ?_, ?_, ?_⟩
  · exact (alertRule_devices_mutation {} {}).1 rfl
  · exact (alertRule_devices_mutation { Devices := [7] } {}).2.1 (by decide)
  · exact (alertRule_devices_mutation {} { ID := 3 }).2.2.1 (by decide) rfl
  · exact (alertRule_devices_mutation {} { ID := 0 }).2.2.2.2 (by decide)

end LibreNMS
